import Mathlib

/-!
Verification of the parking-management backend's Slot Allocator and
Request Lifecycle Engine (slots.service and requests.service of the
parking module), shallowly embedded in Lean.

The relational store is modelled as explicit lists of rows; every Prisma
call of the source is translated to one atomic operation on that state
(findFirst/findUnique become List.find?, update-where-id becomes a map
over the list, delete becomes a filter, create appends).  Service
functions are state-passing: they take the store and return either a
domain error (thrown exceptions in the source) or a result together with
the new store.  Notification e-mails and audit logs are side effects on
external collaborators and are not part of the store state.
-/

namespace Parking

inductive VehicleType where
  | CAR | MOTORCYCLE | TRUCK | VAN
deriving DecidableEq, Repr

inductive VehicleSize where
  | SMALL | MEDIUM | LARGE
deriving DecidableEq, Repr

inductive SlotLocation where
  | NORTH | SOUTH | EAST | WEST
deriving DecidableEq, Repr

inductive SlotStatus where
  | AVAILABLE | UNAVAILABLE
deriving DecidableEq, Repr

inductive RequestStatus where
  | PENDING | APPROVED | REJECTED
deriving DecidableEq, Repr

/-- String rendering of a vehicle type, as interpolated into error
messages by the source. -/
def vehicleTypeName : VehicleType → String
  | .CAR => "CAR"
  | .MOTORCYCLE => "MOTORCYCLE"
  | .TRUCK => "TRUCK"
  | .VAN => "VAN"

/-- String rendering of a vehicle size, as interpolated into error
messages by the source. -/
def vehicleSizeName : VehicleSize → String
  | .SMALL => "SMALL"
  | .MEDIUM => "MEDIUM"
  | .LARGE => "LARGE"

structure Vehicle where
  id : Nat
  userId : Nat
  plateNumber : String
  vehicleType : VehicleType
  size : VehicleSize
deriving DecidableEq, Repr

structure ParkingSlot where
  id : Nat
  slotNumber : String
  vehicleType : VehicleType
  size : VehicleSize
  location : SlotLocation
  status : SlotStatus
deriving DecidableEq, Repr

structure SlotRequest where
  id : Nat
  userId : Nat
  vehicleId : Nat
  slotId : Option Nat
  status : RequestStatus
deriving DecidableEq, Repr

/-- The relational store.  Rows live in lists whose order is the store's
row order (Prisma's findFirst without orderBy returns the first row in
that order).  nextSlotId and nextRequestId model the autoincrement id
sequences, which start at 1 and are never 0. -/
structure DB where
  vehicles : List Vehicle
  slots : List ParkingSlot
  requests : List SlotRequest
  nextSlotId : Nat
  nextRequestId : Nat
deriving DecidableEq, Repr

/-- Domain errors thrown by the services: NotFoundException and
BadRequestException, each carrying the message of the source. -/
inductive ServiceError where
  | notFound (msg : String)
  | badRequest (msg : String)
deriving DecidableEq, Repr

/-- JavaScript truthiness of an optional numeric id, as tested by
patterns like `if (slotId)` and the conditional spread
`...(userId && { userId })` in the source: undefined and 0 are falsy. -/
def optTruthy : Option Nat → Bool
  | none => false
  | some n => n != 0

/-- Where-clause of getRequestById: always filters by request id, and
additionally by userId when the caller passed a truthy userId (the
source spreads `...(userId && { userId })` into the where object). -/
def reqWhere (requestId : Nat) (userId : Option Nat) (q : SlotRequest) : Bool :=
  q.id == requestId &&
    (match userId with
     | none => true
     | some u => if u = 0 then true else q.userId == u)

/-- getRequestById of requests.service: findFirst scoped by id and
optionally by owner, throwing NotFoundException when no row matches. -/
def getRequestById (requestId : Nat) (userId : Option Nat) (db : DB) :
    Except ServiceError SlotRequest :=
  match db.requests.find? (reqWhere requestId userId) with
  | some r => .ok r
  | none => .error (.notFound "Slot request not found")

/-- Prisma relation `include { vehicle: true }` on a SlotRequest: the
relation is required in the schema (vehicleId is a foreign key), so the
row exists in every store satisfying referential integrity; a store that
violates it surfaces here as an integrity error. -/
def includeVehicle (r : SlotRequest) (db : DB) : Except ServiceError Vehicle :=
  match db.vehicles.find? (fun v => v.id == r.vehicleId) with
  | some v => .ok v
  | none => .error (.notFound "referential integrity violation: vehicle row missing")

/-- Where-clause of findCompatibleSlot: exact vehicleType, exact size,
status AVAILABLE. -/
def compatWhere (vt : VehicleType) (sz : VehicleSize) (s : ParkingSlot) : Bool :=
  decide (s.vehicleType = vt) && decide (s.size = sz) && decide (s.status = .AVAILABLE)

/-- findCompatibleSlot of slots.service: findFirst over the slots with
the exact-match where-clause; read-only, so the store is returned
unchanged; throws BadRequestException when no row matches. -/
def findCompatibleSlot (vt : VehicleType) (sz : VehicleSize) (db : DB) :
    Except ServiceError (ParkingSlot × DB) :=
  match db.slots.find? (compatWhere vt sz) with
  | some s => .ok (s, db)
  | none =>
      .error (.badRequest
        ("No available parking slots for " ++ vehicleTypeName vt ++
         " of size " ++ vehicleSizeName sz))

/-- Explicit-slot branch of approveRequest's slot resolution (the caller
supplied a truthy slotId): findUnique by id, then the availability check,
then the strict compatibility check against the request's vehicle. -/
def resolveExplicitSlot (sid : Nat) (v : Vehicle) (db : DB) :
    Except ServiceError ParkingSlot :=
  match db.slots.find? (fun s => s.id == sid) with
  | none => .error (.notFound "Specified parking slot not found")
  | some s =>
      if s.status ≠ .AVAILABLE then
        .error (.badRequest "Selected parking slot is not available")
      else if s.vehicleType ≠ v.vehicleType ∨ s.size ≠ v.size then
        .error (.badRequest "Selected parking slot is not compatible with the vehicle")
      else
        .ok s

/-- Slot resolution of approveRequest: the explicit branch when the
caller supplied a truthy slotId, otherwise the Slot Allocator
(findCompatibleSlot, whose reads leave the store unchanged). -/
def resolveSlot (slotId : Option Nat) (v : Vehicle) (db : DB) :
    Except ServiceError ParkingSlot :=
  if optTruthy slotId then
    resolveExplicitSlot (slotId.getD 0) v db
  else
    match findCompatibleSlot v.vehicleType v.size db with
    | .ok (s, _) => .ok s
    | .error e => .error e

/-- Read phase of approveRequest (everything before its first write):
fetch the request with its vehicle, require status PENDING, and resolve
the slot to reserve.  No store mutation happens in this phase. -/
def approveResolve (requestId : Nat) (slotId : Option Nat) (db : DB) :
    Except ServiceError (SlotRequest × Vehicle × ParkingSlot) :=
  match getRequestById requestId none db with
  | .error e => .error e
  | .ok r =>
      if r.status ≠ .PENDING then
        .error (.badRequest "This request has already been processed")
      else
        match includeVehicle r db with
        | .error e => .error e
        | .ok v =>
            match resolveSlot slotId v db with
            | .error e => .error e
            | .ok s => .ok (r, v, s)

/-- First write of approveRequest: parkingSlot.update where id = slot.id
setting status UNAVAILABLE.  The where-clause is the id alone; the
update carries no status = AVAILABLE precondition. -/
def reserveSlot (sid : Nat) (db : DB) : DB :=
  { db with slots := db.slots.map (fun s => if s.id = sid then { s with status := .UNAVAILABLE } else s) }

/-- Second write of approveRequest: slotRequest.update where
id = requestId setting status APPROVED and slotId to the reserved
slot's id. -/
def bindRequest (requestId sid : Nat) (db : DB) : DB :=
  { db with requests := db.requests.map (fun q => if q.id = requestId then { q with status := .APPROVED, slotId := some sid } else q) }

/-- approveRequest of requests.service: the read phase, then the two
writes issued as two separate awaited Prisma calls (the source wraps
them in no transaction).  The approval notification e-mail sent
afterwards is a side effect on the mailer, not on the store. -/
def approveRequest (requestId : Nat) (slotId : Option Nat) (db : DB) :
    Except ServiceError DB :=
  match approveResolve requestId slotId db with
  | .error e => .error e
  | .ok (_, _, s) => .ok (bindRequest requestId s.id (reserveSlot s.id db))

/-- Store state exposed by an execution of approveRequest that fails
after its first write committed and before its second ran: the source
awaits parkingSlot.update and slotRequest.update as two separate calls
with no surrounding transaction, so a fault between them (connection
loss, process crash, slotRequest.update failing) leaves the store in
exactly this state. -/
def approveAfterSlotUpdate (requestId : Nat) (slotId : Option Nat) (db : DB) :
    Except ServiceError DB :=
  match approveResolve requestId slotId db with
  | .error e => .error e
  | .ok (_, _, s) => .ok (reserveSlot s.id db)

/-- Interleaving of two concurrent approveRequest executions in which
both perform their read phase against the same store before either
writes.  Each Prisma call is one atomic store operation and every await
is a scheduling point of the event loop, so this interleaving is an
execution of two concurrent calls; both slot updates apply because the
update's where-clause is the id alone, with no status = AVAILABLE
guard. -/
def approveRaceBothResolveFirst (r1 r2 : Nat) (s1 s2 : Option Nat) (db : DB) :
    Except ServiceError DB :=
  match approveResolve r1 s1 db with
  | .error e => .error e
  | .ok (_, _, slotA) =>
      match approveResolve r2 s2 db with
      | .error e => .error e
      | .ok (_, _, slotB) =>
          .ok (bindRequest r2 slotB.id (reserveSlot slotB.id
                (bindRequest r1 slotA.id (reserveSlot slotA.id db))))

/-- rejectRequest of requests.service: fetch the request, require
status PENDING, then one update setting status REJECTED (the update's
data object holds the status field only).  The rejection e-mail is a
side effect on the mailer, not on the store. -/
def rejectRequest (requestId : Nat) (db : DB) : Except ServiceError DB :=
  match getRequestById requestId none db with
  | .error e => .error e
  | .ok r =>
      if r.status ≠ .PENDING then
        .error (.badRequest "This request has already been processed")
      else
        .ok { db with requests := db.requests.map (fun q => if q.id = requestId then { q with status := .REJECTED } else q) }

/-- Parse of a status string into the store's RequestStatus enum.  The
source writes the raw string through an unchecked cast
(status as RequestStatus); the relational store accepts only the three
enum values, so a write of any other string is rejected by the store.
The route's schema validation already restricts the body to the three
values. -/
def parseStatus : String → Option RequestStatus
  | "PENDING" => some RequestStatus.PENDING
  | "APPROVED" => some RequestStatus.APPROVED
  | "REJECTED" => some RequestStatus.REJECTED
  | _ => none

/-- updateRequestStatus of requests.service: dispatches APPROVED to
approveRequest and REJECTED to rejectRequest; any other requested
status reaches the else branch, whose guard is the source's
conjunction request.status !== PENDING && status !== PENDING, followed
by a plain field update writing the requested status. -/
def updateRequestStatus (requestId : Nat) (status : String) (slotId : Option Nat) (db : DB) :
    Except ServiceError DB :=
  if status == "APPROVED" then
    approveRequest requestId slotId db
  else if status == "REJECTED" then
    rejectRequest requestId db
  else
    match getRequestById requestId none db with
    | .error e => .error e
    | .ok r =>
        if r.status ≠ .PENDING ∧ status ≠ "PENDING" then
          .error (.badRequest "Cannot change status of already processed requests")
        else
          match parseStatus status with
          | some st =>
              .ok { db with requests := db.requests.map (fun q => if q.id = requestId then { q with status := st } else q) }
          | none => .error (.badRequest "invalid enum value rejected by the store")

/-- createRequest of requests.service: the vehicle must exist and belong
to the caller, no PENDING request may already exist for it, and the new
row is inserted PENDING with no slot bound. -/
def createRequest (userId vehicleId : Nat) (db : DB) : Except ServiceError DB :=
  match db.vehicles.find? (fun v => v.id == vehicleId && v.userId == userId) with
  | none => .error (.notFound "Vehicle not found or does not belong to you")
  | some _ =>
      match db.requests.find? (fun r => r.vehicleId == vehicleId && decide (r.status = .PENDING)) with
      | some _ => .error (.badRequest "A pending request already exists for this vehicle")
      | none =>
          .ok { db with
                requests := db.requests ++
                  [{ id := db.nextRequestId, userId := userId, vehicleId := vehicleId,
                     slotId := none, status := .PENDING }],
                nextRequestId := db.nextRequestId + 1 }

/-- updateRequest of requests.service (vehicle reassignment): scoped
fetch by owner, legal only while PENDING, replacement vehicle must
belong to the owner, then one update writing the vehicleId field. -/
def updateRequest (requestId userId vehicleId : Nat) (db : DB) : Except ServiceError DB :=
  match getRequestById requestId (some userId) db with
  | .error e => .error e
  | .ok r =>
      if r.status ≠ .PENDING then
        .error (.badRequest "Cannot modify requests that are already processed")
      else
        match db.vehicles.find? (fun v => v.id == vehicleId && v.userId == userId) with
        | none => .error (.notFound "Vehicle not found or does not belong to you")
        | some _ =>
            .ok { db with requests := db.requests.map (fun q => if q.id = requestId then { q with vehicleId := vehicleId } else q) }

/-- deleteRequest of requests.service: the fetch is always scoped by the
authenticated caller's userId (the controller passes req.user.userId
unconditionally and the route carries no role branch), legal only while
PENDING, then delete where id = requestId. -/
def deleteRequest (requestId userId : Nat) (db : DB) : Except ServiceError DB :=
  match getRequestById requestId (some userId) db with
  | .error e => .error e
  | .ok r =>
      if r.status ≠ .PENDING then
        .error (.badRequest "Cannot delete requests that are already processed")
      else
        .ok { db with requests := db.requests.filter (fun q => q.id != requestId) }

/-- Input of createBulkSlots.  The field holding the slot-number text
prepended to each generated number is called prefix in the source and
pfx here. -/
structure BulkSlotInput where
  count : Nat
  pfx : String
  startNumber : Nat
  vehicleType : VehicleType
  size : VehicleSize
  location : SlotLocation
deriving DecidableEq, Repr

/-- Slot numbers generated by createBulkSlots: pfx followed by
startNumber + i for i below count. -/
def bulkSlotNumbers (d : BulkSlotInput) : List String :=
  (List.range d.count).map (fun i => d.pfx ++ toString (d.startNumber + i))

/-- Rows inserted by createBulkSlots' transaction loop: for each i
below count one slot with the generated number and status AVAILABLE,
ids drawn from the autoincrement sequence. -/
def bulkNewSlots (d : BulkSlotInput) (db : DB) : List ParkingSlot :=
  (List.range d.count).map (fun i =>
    { id := db.nextSlotId + i,
      slotNumber := d.pfx ++ toString (d.startNumber + i),
      vehicleType := d.vehicleType, size := d.size,
      location := d.location, status := .AVAILABLE : ParkingSlot })

/-- createBulkSlots of slots.service: generate the numbers, findMany the
rows whose slotNumber is among them, fail listing every clash when any
exist, otherwise create all rows inside one transaction, each with
status AVAILABLE, and report the created count. -/
def createBulkSlots (d : BulkSlotInput) (db : DB) : Except ServiceError (Nat × DB) :=
  let nums := bulkSlotNumbers d
  let existing := db.slots.filter (fun s => nums.contains s.slotNumber)
  if existing.length > 0 then
    .error (.badRequest
      ("The following slot numbers already exist: " ++
       String.intercalate ", " (existing.map (fun s => s.slotNumber))))
  else
    .ok ((bulkNewSlots d db).length,
         { db with slots := db.slots ++ bulkNewSlots d db,
                   nextSlotId := db.nextSlotId + d.count })

instance {ε α : Type} [DecidableEq ε] [DecidableEq α] : DecidableEq (Except ε α) :=
  fun x y =>
    match x, y with
    | .ok a, .ok b =>
        if h : a = b then isTrue (by rw [h]) else isFalse (by intro hc; cases hc; exact h rfl)
    | .error a, .error b =>
        if h : a = b then isTrue (by rw [h]) else isFalse (by intro hc; cases hc; exact h rfl)
    | .ok _, .error _ => isFalse (by intro hc; cases hc)
    | .error _, .ok _ => isFalse (by intro hc; cases hc)

/-! Concrete store fixtures used by the evaluation, witness and
counterexample theorems below. -/

/-- A CAR of size MEDIUM owned by user 1. -/
def vCar : Vehicle :=
  { id := 1, userId := 1, plateNumber := "RAB123A", vehicleType := .CAR, size := .MEDIUM }

/-- One AVAILABLE slot compatible with vCar. -/
def slotA : ParkingSlot :=
  { id := 1, slotNumber := "A-1", vehicleType := .CAR, size := .MEDIUM,
    location := .NORTH, status := .AVAILABLE }

/-- A PENDING request of user 1 for vCar, no slot bound. -/
def reqPending : SlotRequest :=
  { id := 1, userId := 1, vehicleId := 1, slotId := none, status := .PENDING }

/-- The request after approval: APPROVED and bound to slot 1. -/
def reqApproved : SlotRequest :=
  { id := 1, userId := 1, vehicleId := 1, slotId := some 1, status := .APPROVED }

/-- Store with one vehicle, one AVAILABLE compatible slot and one
PENDING request. -/
def db0 : DB :=
  { vehicles := [vCar], slots := [slotA], requests := [reqPending],
    nextSlotId := 2, nextRequestId := 2 }

/-- Store reached from db0 by a completed approval of request 1: the
slot is UNAVAILABLE and the request APPROVED and bound to it. -/
def dbApproved : DB :=
  { vehicles := [vCar], slots := [{ slotA with status := .UNAVAILABLE }],
    requests := [reqApproved], nextSlotId := 2, nextRequestId := 2 }

/-- Store exposed by an approval of request 1 in db0 that fails between
its two writes: slot reserved, request still PENDING and unbound. -/
def dbHalf : DB :=
  { vehicles := [vCar], slots := [{ slotA with status := .UNAVAILABLE }],
    requests := [reqPending], nextSlotId := 2, nextRequestId := 2 }

/-- Store reached from dbApproved by the generic status update with
target PENDING: the request is PENDING again while still bound to the
now UNAVAILABLE slot. -/
def dbReset : DB :=
  { vehicles := [vCar], slots := [{ slotA with status := .UNAVAILABLE }],
    requests := [{ reqApproved with status := .PENDING }],
    nextSlotId := 2, nextRequestId := 2 }

/-- Second CAR of size MEDIUM, owned by user 2. -/
def vCar2 : Vehicle :=
  { id := 2, userId := 2, plateNumber := "RAB456B", vehicleType := .CAR, size := .MEDIUM }

/-- A PENDING request of user 2 for vCar2. -/
def reqPending2 : SlotRequest :=
  { id := 2, userId := 2, vehicleId := 2, slotId := none, status := .PENDING }

/-- Store with two PENDING requests whose vehicles have identical
type and size, and exactly one AVAILABLE compatible slot. -/
def dbRace : DB :=
  { vehicles := [vCar, vCar2], slots := [slotA],
    requests := [reqPending, reqPending2], nextSlotId := 2, nextRequestId := 3 }

/-- Store produced by the race interleaving on dbRace: both requests
APPROVED and bound to the single slot 1. -/
def dbDouble : DB :=
  { vehicles := [vCar, vCar2], slots := [{ slotA with status := .UNAVAILABLE }],
    requests := [reqApproved,
                 { id := 2, userId := 2, vehicleId := 2, slotId := some 1, status := .APPROVED }],
    nextSlotId := 2, nextRequestId := 3 }

/-- C1: the approval of request 1 in db0 is not applied as one atomic
unit.  The source issues the slot write and the request write as two
separate Prisma calls with no transaction, so an execution that fails
after the first write exposes the store approveAfterSlotUpdate
describes: every slot UNAVAILABLE (slot reserved) while every request is
still PENDING with no slot bound — exactly the half-applied approval the
claim rules out. -/
theorem approve_without_transaction_exposes_half_applied_state :
    approveAfterSlotUpdate 1 none db0 = Except.ok dbHalf ∧
    (∀ s ∈ dbHalf.slots, s.status = SlotStatus.UNAVAILABLE) ∧
    (∀ q ∈ dbHalf.requests, q.status = RequestStatus.PENDING ∧ q.slotId = none) := by
  decide

/-- C2: the SlotRequest status machine is not monotonic.  Starting from
db0, the engine's own operations produce PENDING → APPROVED (approve)
and then APPROVED → PENDING (the generic status update with target
PENDING), so a request does leave the APPROVED state. -/
theorem approved_request_leaves_terminal_state :
    approveRequest 1 none db0 = Except.ok dbApproved ∧
    (∀ q ∈ dbApproved.requests, q.status = RequestStatus.APPROVED) ∧
    updateRequestStatus 1 "PENDING" none dbApproved = Except.ok dbReset ∧
    (∀ q ∈ dbReset.requests, q.status = RequestStatus.PENDING) := by
  decide

/-- C3: the generic status update with target PENDING on an APPROVED
request does not fail.  The source guard is the conjunction
request.status !== PENDING && status !== PENDING, whose second conjunct
is false when the target is PENDING, so the BadRequest is unreachable
and the call succeeds, resetting the processed request to PENDING. -/
theorem status_update_to_pending_on_processed_succeeds :
    updateRequestStatus 1 "PENDING" none dbApproved ≠
      Except.error (ServiceError.badRequest "Cannot change status of already processed requests") ∧
    updateRequestStatus 1 "PENDING" none dbApproved = Except.ok dbReset := by
  decide

/-- C9: two concurrent approvals can double-book one slot.  In dbRace
there is exactly one AVAILABLE slot; under the interleaving in which
both calls run their read phase before either writes (legal, since every
await is a scheduling point and the slot update carries no
status = AVAILABLE guard), both calls complete without error and both
requests end APPROVED and bound to slot 1. -/
theorem approve_race_double_books_single_slot :
    dbRace.slots.length = 1 ∧
    (∀ s ∈ dbRace.slots, s.status = SlotStatus.AVAILABLE) ∧
    approveRaceBothResolveFirst 1 2 none none dbRace = Except.ok dbDouble ∧
    (∀ q ∈ dbDouble.requests, q.status = RequestStatus.APPROVED ∧ q.slotId = some 1) := by
  decide

/-- C4: Approve on a request whose status is APPROVED or REJECTED (any
status other than PENDING) fails with the BadRequest of the source
before reaching either write: the status check precedes slot resolution
and both Prisma updates, so the error is raised with the store
untouched (an error result in this embedding carries no new store;
every write of approveRequest happens only on the ok path). -/
theorem approveRequest_nonpending_fails (db : DB) (requestId : Nat) (slotId : Option Nat)
    (r : SlotRequest)
    (hr : getRequestById requestId none db = Except.ok r)
    (hnp : r.status ≠ RequestStatus.PENDING) :
    approveRequest requestId slotId db =
      Except.error (ServiceError.badRequest "This request has already been processed") := by
  unfold approveRequest approveResolve
  rw [hr]
  simp [hnp]

/-- Witness for C4: approving the already APPROVED request 1 of
dbApproved fails with the already-processed BadRequest. -/
theorem approveRequest_nonpending_fails_witness :
    approveRequest 1 none dbApproved =
      Except.error (ServiceError.badRequest "This request has already been processed") :=
  approveRequest_nonpending_fails dbApproved 1 none reqApproved (by decide) (by decide)

/-- C5: for Approve on a PENDING request with an explicitly supplied
(truthy) slotId, the explicit branch runs findUnique by that id and
fails NotFound when the slot is missing, BadRequest when it is not
AVAILABLE, BadRequest when its vehicleType or size differs from the
request's vehicle; only when it exists, is AVAILABLE and matches both
fields does the approval proceed, reserving exactly that slot and
binding the request to it. -/
theorem approveRequest_explicit_slot_checks (db : DB) (requestId sid : Nat)
    (r : SlotRequest) (v : Vehicle)
    (hr : getRequestById requestId none db = Except.ok r)
    (hp : r.status = RequestStatus.PENDING)
    (hv : includeVehicle r db = Except.ok v)
    (hs : sid ≠ 0) :
    (db.slots.find? (fun t => t.id == sid) = none →
       approveRequest requestId (some sid) db =
         Except.error (ServiceError.notFound "Specified parking slot not found")) ∧
    (∀ s, db.slots.find? (fun t => t.id == sid) = some s →
       s.status ≠ SlotStatus.AVAILABLE →
       approveRequest requestId (some sid) db =
         Except.error (ServiceError.badRequest "Selected parking slot is not available")) ∧
    (∀ s, db.slots.find? (fun t => t.id == sid) = some s →
       s.status = SlotStatus.AVAILABLE →
       (s.vehicleType ≠ v.vehicleType ∨ s.size ≠ v.size) →
       approveRequest requestId (some sid) db =
         Except.error (ServiceError.badRequest "Selected parking slot is not compatible with the vehicle")) ∧
    (∀ s, db.slots.find? (fun t => t.id == sid) = some s →
       s.status = SlotStatus.AVAILABLE → s.vehicleType = v.vehicleType → s.size = v.size →
       approveRequest requestId (some sid) db =
         Except.ok (bindRequest requestId s.id (reserveSlot s.id db))) := by
  refine ⟨?_, ?_, ?_, ?_⟩
  · intro hnone
    simp [approveRequest, approveResolve, resolveSlot, resolveExplicitSlot, optTruthy,
          hr, hp, hv, hs, hnone]
  · intro s hfind hna
    simp [approveRequest, approveResolve, resolveSlot, resolveExplicitSlot, optTruthy,
          hr, hp, hv, hs, hfind, hna]
  · intro s hfind hav hmis
    rcases hmis with h | h <;>
      simp [approveRequest, approveResolve, resolveSlot, resolveExplicitSlot, optTruthy,
            hr, hp, hv, hs, hfind, hav, h]
  · intro s hfind hav hvt hsz
    simp [approveRequest, approveResolve, resolveSlot, resolveExplicitSlot, optTruthy,
          hr, hp, hv, hs, hfind, hav, hvt, hsz]

/-- Witness for C5: in db0 the explicitly supplied slot 1 exists, is
AVAILABLE and matches vCar's type and size, and approving request 1
with it reserves slot 1 and binds the request to it. -/
theorem approveRequest_explicit_slot_checks_witness :
    approveRequest 1 (some 1) db0 =
      Except.ok (bindRequest 1 slotA.id (reserveSlot slotA.id db0)) :=
  (approveRequest_explicit_slot_checks db0 1 1 reqPending vCar (by decide) (by decide)
      (by decide) (by decide)).2.2.2 slotA (by decide) (by decide) (by decide) (by decide)

/-- An AVAILABLE slot incompatible with vCar (TRUCK/LARGE), placed
before slotA in dbSlots to exercise first-match selection. -/
def slotB : ParkingSlot :=
  { id := 2, slotNumber := "B-1", vehicleType := .TRUCK, size := .LARGE,
    location := .SOUTH, status := .AVAILABLE }

/-- Store whose slot list holds the incompatible slotB first and the
compatible slotA second. -/
def dbSlots : DB :=
  { vehicles := [vCar], slots := [slotB, slotA], requests := [reqPending],
    nextSlotId := 3, nextRequestId := 2 }

/-- C6: findCompatibleSlot returns the first stored slot that is
AVAILABLE with exactly the requested vehicleType and size — every slot
stored before it fails the exact-match condition — and returns the
store unchanged (its only store access is one findFirst).  When no
stored slot satisfies the condition it fails with the BadRequest
domain error carrying the source's message. -/
theorem findCompatibleSlot_spec (db : DB) (vt : VehicleType) (sz : VehicleSize) :
    (∀ s db2, findCompatibleSlot vt sz db = Except.ok (s, db2) →
       db2 = db ∧ s.status = SlotStatus.AVAILABLE ∧ s.vehicleType = vt ∧ s.size = sz ∧
       ∃ l1 l2, db.slots = l1 ++ s :: l2 ∧
         ∀ t ∈ l1, ¬(t.status = SlotStatus.AVAILABLE ∧ t.vehicleType = vt ∧ t.size = sz)) ∧
    ((∀ t ∈ db.slots, ¬(t.status = SlotStatus.AVAILABLE ∧ t.vehicleType = vt ∧ t.size = sz)) →
       findCompatibleSlot vt sz db =
         Except.error (ServiceError.badRequest
           ("No available parking slots for " ++ vehicleTypeName vt ++
            " of size " ++ vehicleSizeName sz))) := by
  constructor
  · intro s db2 h
    unfold findCompatibleSlot at h
    cases hfind : db.slots.find? (compatWhere vt sz) with
    | none => rw [hfind] at h; exact absurd h (by simp)
    | some u =>
        rw [hfind] at h
        obtain ⟨rfl, rfl⟩ :=
          Prod.mk.injEq u db s db2 ▸ Except.ok.inj h
        have hu := List.find?_some hfind
        simp only [compatWhere, Bool.and_eq_true, decide_eq_true_eq] at hu
        obtain ⟨⟨hvt, hsz⟩, hst⟩ := hu
        obtain ⟨hp, as, bs, hsplit, hfail⟩ := List.find?_eq_some.mp hfind
        refine ⟨rfl, hst, hvt, hsz, as, bs, hsplit, ?_⟩
        intro t ht hcon
        have hpt : compatWhere vt sz t = true := by
          simp only [compatWhere, Bool.and_eq_true, decide_eq_true_eq]
          exact ⟨⟨hcon.2.1, hcon.2.2⟩, hcon.1⟩
        have hft := hfail t ht
        rw [hpt] at hft
        simp at hft
  · intro hnone
    have hfind : db.slots.find? (compatWhere vt sz) = none := by
      rw [List.find?_eq_none]
      intro t ht
      intro hcontra
      simp only [compatWhere, Bool.and_eq_true, decide_eq_true_eq] at hcontra
      exact hnone t ht ⟨hcontra.2, hcontra.1.1, hcontra.1.2⟩
    unfold findCompatibleSlot
    rw [hfind]

/-- Witness for C6: in dbSlots the incompatible slotB precedes the
compatible slotA; the allocator skips slotB, returns slotA with the
store unchanged, and slotA is AVAILABLE with the exact type and size. -/
theorem findCompatibleSlot_spec_witness :
    findCompatibleSlot VehicleType.CAR VehicleSize.MEDIUM dbSlots = Except.ok (slotA, dbSlots) ∧
    slotA.status = SlotStatus.AVAILABLE ∧
    slotA.vehicleType = VehicleType.CAR ∧ slotA.size = VehicleSize.MEDIUM := by
  have h := (findCompatibleSlot_spec dbSlots VehicleType.CAR VehicleSize.MEDIUM).1
      slotA dbSlots (by decide)
  exact ⟨by decide, h.2.1, h.2.2.1, h.2.2.2.1⟩

/-- C7: when none of the generated sequential numbers is already
stored, createBulkSlots creates exactly count slots — the store grows by
count rows, one AVAILABLE row per generated number — and touches no
other table; when any generated number is already stored, the whole call
fails with a BadRequest whose message lists every clashing stored
number, and no slot is created (the error is raised before the
transaction runs). -/
theorem createBulkSlots_spec (d : BulkSlotInput) (db : DB) :
    ((∀ s ∈ db.slots, s.slotNumber ∉ bulkSlotNumbers d) →
       ∃ db2, createBulkSlots d db = Except.ok (d.count, db2) ∧
         db2.slots.length = db.slots.length + d.count ∧
         (∀ i, i < d.count → ∃ s, s ∈ db2.slots ∧
            s.slotNumber = d.pfx ++ toString (d.startNumber + i) ∧
            s.status = SlotStatus.AVAILABLE) ∧
         db2.requests = db.requests ∧ db2.vehicles = db.vehicles) ∧
    ((∃ s ∈ db.slots, s.slotNumber ∈ bulkSlotNumbers d) →
       createBulkSlots d db = Except.error (ServiceError.badRequest
         ("The following slot numbers already exist: " ++
          String.intercalate ", "
            ((db.slots.filter (fun s => (bulkSlotNumbers d).contains s.slotNumber)).map
              (fun s => s.slotNumber))))) := by
  constructor
  · intro hno
    have hfilter : db.slots.filter (fun s => (bulkSlotNumbers d).contains s.slotNumber) = [] := by
      rw [List.filter_eq_nil_iff]
      intro s hs hcontra
      exact hno s hs (List.elem_iff.mp hcontra)
    refine ⟨⟨db.vehicles, db.slots ++ bulkNewSlots d db, db.requests,
             db.nextSlotId + d.count, db.nextRequestId⟩, ?_, ?_, ?_, rfl, rfl⟩
    · simp [createBulkSlots, hfilter, bulkNewSlots]
      exact hno
    · simp [bulkNewSlots]
    · intro i hi
      refine ⟨{ id := db.nextSlotId + i,
                slotNumber := d.pfx ++ toString (d.startNumber + i),
                vehicleType := d.vehicleType, size := d.size,
                location := d.location, status := .AVAILABLE }, ?_, rfl, rfl⟩
      exact List.mem_append_right _
        (List.mem_map.mpr ⟨i, List.mem_range.mpr hi, rfl⟩)
  · rintro ⟨s, hs, hmem⟩
    have hlen : 0 < (db.slots.filter
        (fun t => (bulkSlotNumbers d).contains t.slotNumber)).length := by
      apply List.length_pos_of_mem (a := s)
      rw [List.mem_filter]
      exact ⟨hs, List.elem_iff.mpr hmem⟩
    unfold createBulkSlots
    rw [if_pos hlen]

/-- Bulk input of the round-trip scenario: count 5, starting number
101, number text A- prepended. -/
def bulkInput : BulkSlotInput :=
  { count := 5, pfx := "A-", startNumber := 101,
    vehicleType := .CAR, size := .MEDIUM, location := .NORTH }

/-- Empty store. -/
def dbEmpty : DB :=
  { vehicles := [], slots := [], requests := [], nextSlotId := 1, nextRequestId := 1 }

/-- Store produced by the first bulk call on dbEmpty: slots A-101
through A-105, all AVAILABLE. -/
def dbFive : DB :=
  { vehicles := [], slots := bulkNewSlots bulkInput dbEmpty, requests := [],
    nextSlotId := 6, nextRequestId := 1 }

/-- Witness for C7, the round-trip of the claim: the first bulk call of
count 5, startNumber 101, A- succeeds creating A-101..A-105 all
AVAILABLE, and the identical second call fails with the BadRequest
listing all five numbers. -/
theorem createBulkSlots_spec_witness :
    createBulkSlots bulkInput dbEmpty = Except.ok (5, dbFive) ∧
    (∀ s ∈ dbFive.slots, s.status = SlotStatus.AVAILABLE) ∧
    dbFive.slots.map (fun s => s.slotNumber) = ["A-101", "A-102", "A-103", "A-104", "A-105"] ∧
    createBulkSlots bulkInput dbFive = Except.error (ServiceError.badRequest
      "The following slot numbers already exist: A-101, A-102, A-103, A-104, A-105") := by
  have h2 := (createBulkSlots_spec bulkInput dbFive).2
    ⟨{ id := 1, slotNumber := "A-101", vehicleType := .CAR, size := .MEDIUM,
       location := .NORTH, status := .AVAILABLE }, by decide, by decide⟩
  refine ⟨by decide, by decide, by decide, ?_⟩
  rw [h2]
  decide

/-- C8: Reject on a PENDING request succeeds and its only write sets
that request's status field to REJECTED: every parking slot and every
vehicle row is unchanged, every other request is unchanged, and the
rejected request keeps its id, owner, vehicle and slotId — in
particular a slotId of none (the null of the source) stays none. -/
theorem rejectRequest_frame (db : DB) (requestId : Nat) (r : SlotRequest)
    (hr : getRequestById requestId none db = Except.ok r)
    (hp : r.status = RequestStatus.PENDING) :
    ∃ db2, rejectRequest requestId db = Except.ok db2 ∧
      db2.slots = db.slots ∧ db2.vehicles = db.vehicles ∧
      db2.requests = db.requests.map
        (fun q => if q.id = requestId then { q with status := RequestStatus.REJECTED } else q) ∧
      (∀ q ∈ db.requests, q.id ≠ requestId → q ∈ db2.requests) ∧
      (∀ q ∈ db.requests, q.id = requestId →
         ({ id := q.id, userId := q.userId, vehicleId := q.vehicleId, slotId := q.slotId,
            status := RequestStatus.REJECTED : SlotRequest } ∈ db2.requests)) := by
  refine ⟨⟨db.vehicles, db.slots,
           db.requests.map (fun q => if q.id = requestId then { q with status := RequestStatus.REJECTED } else q),
           db.nextSlotId, db.nextRequestId⟩, ?_, rfl, rfl, rfl, ?_, ?_⟩
  · simp [rejectRequest, hr, hp]
  · intro q hq hne
    exact List.mem_map.mpr ⟨q, hq, by simp [hne]⟩
  · intro q hq heq
    exact List.mem_map.mpr ⟨q, hq, by simp [heq]⟩

/-- Store reached from db0 by rejecting request 1: the request is
REJECTED with slotId still none, the slot list untouched. -/
def dbRejected : DB :=
  { vehicles := [vCar], slots := [slotA],
    requests := [{ reqPending with status := .REJECTED }],
    nextSlotId := 2, nextRequestId := 2 }

/-- Witness for C8: rejecting the PENDING request 1 of db0 yields
dbRejected, whose slot list is db0's (slot 1 stays AVAILABLE) and whose
request is REJECTED with slotId still none. -/
theorem rejectRequest_frame_witness :
    rejectRequest 1 db0 = Except.ok dbRejected ∧
    dbRejected.slots = db0.slots ∧
    (∀ q ∈ dbRejected.requests, q.status = RequestStatus.REJECTED ∧ q.slotId = none) := by
  obtain ⟨db2, h1, h2, h3, h4, h5, h6⟩ :=
    rejectRequest_frame db0 1 reqPending (by decide) (by decide)
  have h0 : rejectRequest 1 db0 = Except.ok dbRejected := by decide
  have hd : db2 = dbRejected := Except.ok.inj ((h0 ▸ h1 : Except.ok dbRejected = Except.ok db2)).symm
  exact ⟨h0, hd ▸ h2, by decide⟩

/-- C10: the delete endpoint always scopes its lookup to the
authenticated caller's own requests — the route registers no role
branch and the controller passes the caller's own userId
unconditionally — so for every caller (ADMIN included) whose userId
differs from the request owner's, deleteRequest fails with NotFound.
The hypothesis callerId ≠ 0 reflects that autoincrement user ids start
at 1 (a zero userId would be falsy and drop the scope filter). -/
theorem deleteRequest_scoped_to_owner (db : DB) (requestId callerId : Nat)
    (hc : callerId ≠ 0)
    (hown : ∀ q ∈ db.requests, q.id = requestId → q.userId ≠ callerId) :
    deleteRequest requestId callerId db =
      Except.error (ServiceError.notFound "Slot request not found") := by
  have hnone : db.requests.find? (reqWhere requestId (some callerId)) = none := by
    rw [List.find?_eq_none]
    intro q hq hcontra
    simp only [reqWhere, if_neg hc, Bool.and_eq_true, beq_iff_eq] at hcontra
    exact hown q hq hcontra.1 hcontra.2
  simp [deleteRequest, getRequestById, hnone]

/-- Witness for C10: an admin caller with userId 2 cannot delete
request 1 of db0, which is owned by user 1: the call fails NotFound. -/
theorem deleteRequest_scoped_to_owner_witness :
    deleteRequest 1 2 db0 = Except.error (ServiceError.notFound "Slot request not found") :=
  deleteRequest_scoped_to_owner db0 1 2 (by decide) (by decide)

end Parking
